import Mathlib

/-!
Shallow embedding of the acoustic DSP core of Avisuite
(src/Combined.py, MODULE 1 — DSP CORE, lines 216–557).

Python floats are modelled as real numbers, numpy arrays as lists of
reals.  Every definition follows the cited source line by line; numpy
and scipy primitives (np.hamming, np.correlate, rfft, find_peaks,
lfilter, polyfit) are embedded by their documented mathematics.
-/

/-! ### Constants (Combined.py 216–223).
FRAME_N = int(SR*25/1000) = 551 and HOP_N = int(SR*10/1000) = 220;
Nat division is exact truncation, matching Python int(). -/

def SR : ℕ := 22050

def FRAME_MS : ℕ := 25

def HOP_MS : ℕ := 10

def FRAME_N : ℕ := SR * FRAME_MS / 1000

def HOP_N : ℕ := SR * HOP_MS / 1000

def N_MFCC : ℕ := 13

def N_LPC : ℕ := 16

noncomputable def PRE_EMP : ℝ := 0.97

/-! ### numpy list helpers.
np.mean/np.std are population statistics; every use in the source is
guarded to nonempty lists (division by zero in ℝ yields 0 and is never
hit on the guarded paths).  np.max/np.min model the nonempty case. -/

noncomputable def listMean (l : List ℝ) : ℝ := l.sum / l.length

noncomputable def listStd (l : List ℝ) : ℝ :=
  Real.sqrt (listMean (l.map (fun x => (x - listMean l) ^ 2)))

noncomputable def npMax (l : List ℝ) : ℝ := l.foldl max (l.headD 0)

noncomputable def npMin (l : List ℝ) : ℝ := l.foldl min (l.headD 0)

/-- np.max(np.abs(l)) for nonempty l; all |x| are ≥ 0, so the 0 seed is neutral. -/
noncomputable def npMaxAbs (l : List ℝ) : ℝ := l.foldl (fun m x => max m |x|) 0

/-- np.clip(x, lo, hi). -/
noncomputable def npclip (x lo hi : ℝ) : ℝ := min (max x lo) hi

/-- np.diff: element i is l[i+1] - l[i]. -/
noncomputable def diffList (l : List ℝ) : List ℝ :=
  List.zipWith (fun b a => b - a) l.tail l

/-- np.sign. -/
noncomputable def npSign (x : ℝ) : ℝ := if 0 < x then 1 else if x < 0 then -1 else 0

/-! ### Signal Conditioner (290–304). -/

/-- pre_emphasis (290–291): np.append(audio[0], audio[1:] - coef*audio[:-1]).
Only reached with nonempty audio in the pipeline. -/
noncomputable def pre_emphasis (audio : List ℝ) (coef : ℝ := PRE_EMP) : List ℝ :=
  match audio with
  | [] => []
  | x0 :: rest => x0 :: List.zipWith (fun cur prev => cur - coef * prev) rest audio

/-- normalize_audio (293–295): audio / (np.max(np.abs(audio)) + 1e-9). -/
noncomputable def normalize_audio (audio : List ℝ) : List ℝ :=
  audio.map (fun x => x / (npMaxAbs audio + 1e-9))

/-- frame_signal (297–301).  Python // is floor division, hence Int.fdiv;
row i of the fancy-indexed matrix is audio[i*hop : i*hop+frame_len]. -/
noncomputable def frame_signal (audio : List ℝ) (frame_len hop : ℕ) : List (List ℝ) :=
  let n_frames : ℤ := 1 + Int.fdiv ((audio.length : ℤ) - (frame_len : ℤ)) (hop : ℤ)
  if n_frames ≤ 0 then [List.replicate frame_len 0]
  else (List.range n_frames.toNat).map (fun i => (audio.drop (i * hop)).take frame_len)

/-- np.hamming(M): 0.54 - 0.46 cos(2πn/(M-1)); numpy returns [1] for M = 1. -/
noncomputable def hamming (M : ℕ) : List ℝ :=
  if M = 1 then [1]
  else (List.range M).map (fun n => 0.54 - 0.46 * Real.cos (2 * Real.pi * n / ((M : ℝ) - 1)))

/-- apply_window (303–304): frames * np.hamming(frames.shape[1]) row-wise. -/
noncomputable def apply_window (frames : List (List ℝ)) : List (List ℝ) :=
  frames.map (fun fr => List.zipWith (fun x w => x * w) fr (hamming fr.length))

/-! ### Spectral/Cepstral Engine (306–350). -/

/-- Squared magnitude of rfft(x, n) at bin k: np.fft.rfft truncates or
zero-pads x to n points, and the squared modulus of Σ x_m e^(-2πikm/n) is
(Σ x_m cos)² + (Σ x_m sin)². -/
noncomputable def rfftPower (x : List ℝ) (n_fft : ℕ) : List ℝ :=
  (List.range (n_fft / 2 + 1)).map (fun k =>
    (∑ m ∈ Finset.range n_fft, x.getD m 0 * Real.cos (2 * Real.pi * k * m / n_fft)) ^ 2 +
    (∑ m ∈ Finset.range n_fft, x.getD m 0 * Real.sin (2 * Real.pi * k * m / n_fft)) ^ 2)

/-- power_spectrum (306–307). -/
noncomputable def power_spectrum (frames : List (List ℝ)) (n_fft : ℕ := 512) : List (List ℝ) :=
  frames.map (fun fr => rfftPower fr n_fft)

/-- hz_to_mel (309). -/
noncomputable def hz_to_mel (hz : ℝ) : ℝ := 2595 * Real.logb 10 (1 + hz / 700)

/-- mel_to_hz (310). -/
noncomputable def mel_to_hz (mel : ℝ) : ℝ := 700 * ((10 : ℝ) ^ (mel / 2595) - 1)

/-- bin_pts (313–316): np.floor((n_fft+1) * hz_pts / sr) over the linspace of
n_mels+2 mel points; .astype(int) truncates, equal to floor on nonnegatives. -/
noncomputable def binPoint (sr n_fft n_mels : ℕ) (fmin fmax : ℝ) (i : ℕ) : ℕ :=
  let mel := hz_to_mel fmin + (hz_to_mel fmax - hz_to_mel fmin) * i / (n_mels + 1)
  ⌊((n_fft : ℝ) + 1) * mel_to_hz mel / sr⌋₊

/-- mel_filterbank (312–323): entry of triangular filter row m (0-based; the
source's loop index is m+1), column k.  The rising and falling ranges are
disjoint, so the two loops never overwrite each other. -/
noncomputable def fbankEntry (sr n_fft n_mels : ℕ) (fmin fmax : ℝ) (m k : ℕ) : ℝ :=
  let b := binPoint sr n_fft n_mels fmin fmax
  if b m ≤ k ∧ k < b (m + 1) then
    ((k : ℝ) - b m) / (((b (m + 1) : ℝ) - b m) + 1e-10)
  else if b (m + 1) ≤ k ∧ k < min (b (m + 2)) (n_fft / 2 + 1) then
    ((b (m + 2) : ℝ) - k) / (((b (m + 2) : ℝ) - b (m + 1)) + 1e-10)
  else 0

/-- Frame matrix consumed by the cepstral engine (332–333): the PRE-EMPHASIZED
audio is framed. -/
noncomputable def mfccFrames (audio : List ℝ) : List (List ℝ) :=
  frame_signal (pre_emphasis audio) FRAME_N HOP_N

/-- compute_mfcc (331–342).  get_fbank (325–329) memoizes mel_filterbank per
(sr, n_fft, n_mels) key; the cached value is a pure function of its key, so
the embedding is the function itself.  Mel energies are floored at 1e-10
before the natural log; the cosine projection yields rows = 13 coefficients,
columns = frames. -/
noncomputable def compute_mfcc (audio : List ℝ) : List (List ℝ) :=
  let frames := apply_window (mfccFrames audio)
  let power := power_spectrum frames 512
  let logME : ℕ → ℕ → ℝ := fun t m =>
    let e := ∑ k ∈ Finset.range 257, (power.getD t []).getD k 0 * fbankEntry SR 512 40 80 8000 m k
    Real.log (if e < 1e-10 then 1e-10 else e)
  (List.range N_MFCC).map (fun i =>
    (List.range power.length).map (fun t =>
      ∑ m ∈ Finset.range 40, logME t m * Real.cos (Real.pi * i / 40 * ((m : ℝ) + 0.5))))

/-- delta_features (344–350) on one row, width = 2 (both call sites use the
default): edge padding is index clamping, denominator 2*(1²+2²) = 10. -/
noncomputable def deltaRow (row : List ℝ) : List ℝ :=
  let pad : ℤ → ℝ := fun t => row.getD (Int.toNat (max 0 (min ((row.length : ℤ) - 1) t))) 0
  (List.range row.length).map (fun t =>
    (1 * (pad ((t : ℤ) + 1) - pad ((t : ℤ) - 1)) +
     2 * (pad ((t : ℤ) + 2) - pad ((t : ℤ) - 2))) / 10)

/-- delta_features (344–350). -/
noncomputable def delta_features (feat : List (List ℝ)) : List (List ℝ) :=
  feat.map deltaRow

/-! ### Linear Predictive Engine (352–374). -/

/-- np.correlate(x, x, 'full')[len(x)-1 : len(x)+maxLag]: autocorrelation lags
0..maxLag; Python slices clamp at the array bound, hence the min. -/
noncomputable def autocorrLags (x : List ℝ) (maxLag : ℕ) : List ℝ :=
  (List.range (min (maxLag + 1) x.length)).map (fun k =>
    ∑ n ∈ Finset.range (x.length - k), x.getD n 0 * x.getD (n + k) 0)

/-- np.correlate(x, x, 'full')[len(x)-1:]: all nonnegative lags. -/
noncomputable def autocorrFull (x : List ℝ) : List ℝ :=
  (List.range x.length).map (fun k =>
    ∑ n ∈ Finset.range (x.length - k), x.getD n 0 * x.getD (n + k) 0)

/-- The Hamming-windowed frame used inside compute_lpc (353). -/
noncomputable def lpcWindowed (frame : List ℝ) : List ℝ :=
  List.zipWith (fun x w => x * w) frame (hamming frame.length)

/-- Zero-lag autocorrelation r[0] of the windowed frame (354–356). -/
noncomputable def lpcR0 (frame : List ℝ) : ℝ :=
  (autocorrLags (lpcWindowed frame) N_LPC).getD 0 0

/-- One Levinson-Durbin iteration of compute_lpc (358–362): iteration i sets
a[i] := lam and a[j] := a[j] + lam*a[i-1-j] for j < i (reads are from the
pre-update copy), then e := max(e*(1-lam²), 1e-12). -/
noncomputable def lpcStep (r : List ℝ) (s : List ℝ × ℝ) (i : ℕ) : List ℝ × ℝ :=
  let a := s.1
  let e := s.2
  let lam := (-(∑ j ∈ Finset.range i, a.getD j 0 * r.getD (i - j) 0) - r.getD (i + 1) 0) /
    (e + 1e-12)
  let aNew := a.mapIdx (fun j aj =>
    if j < i then aj + lam * a.getD (i - 1 - j) 0 else if j = i then lam else aj)
  (aNew, max (e * (1 - lam ^ 2)) 1e-12)

/-- compute_lpc (352–363); order fixed at N_LPC = 16, the only call site uses
the default.  Levinson-Durbin recursion: a starts at zeros(order), e at r[0]. -/
noncomputable def compute_lpc (frame : List ℝ) : List ℝ :=
  let r := autocorrLags (lpcWindowed frame) N_LPC
  if r.getD 0 0 < 1e-12 then List.replicate N_LPC 0
  else ((List.range N_LPC).foldl (lpcStep r) (List.replicate N_LPC 0, r.getD 0 0)).1

/-- scipy.signal.lfilter(b, [1], x): causal FIR filter y[n] = Σ_j b[j]·x[n-j]. -/
noncomputable def lfilterFIR (b x : List ℝ) : List ℝ :=
  (List.range x.length).map (fun n =>
    ∑ j ∈ Finset.range (min (n + 1) b.length), b.getD j 0 * x.getD (n - j) 0)

structure LpcFeats where
  lpc_error_mean : ℝ
  lpc_error_std : ℝ
  lpc_flux : ℝ

/-- Frame matrix consumed by the LPC engine (366): the RAW (normalized) audio
is framed — no pre-emphasis is applied in compute_lpc_features. -/
noncomputable def lpcFrames (audio : List ℝ) : List (List ℝ) :=
  frame_signal audio FRAME_N HOP_N

/-- compute_lpc_features (365–374): per-frame LPC error = mean squared
inverse-filter residual; flux = mean Euclidean distance between consecutive
coefficient vectors, 0 when there are fewer than two frames. -/
noncomputable def compute_lpc_features (audio : List ℝ) : LpcFeats :=
  let frames := lpcFrames audio
  let lpcs := frames.map compute_lpc
  let errors := frames.map (fun fr =>
    listMean ((lfilterFIR (1 :: compute_lpc fr) fr).map (fun x => x ^ 2)))
  let flux : ℝ :=
    if 1 < lpcs.length then
      listMean ((List.range (lpcs.length - 1)).map (fun t =>
        Real.sqrt (∑ j ∈ Finset.range N_LPC,
          ((lpcs.getD (t + 1) []).getD j 0 - (lpcs.getD t []).getD j 0) ^ 2)))
    else 0
  { lpc_error_mean := listMean errors, lpc_error_std := listStd errors, lpc_flux := flux }

/-! ### Pitch & Voicing Engine (376–417). -/

/-- The clipped, windowed frame inside estimate_f0_frame (377–379): window by
Hamming, then zero out samples whose magnitude is at most 30% of the peak
(np.where(np.abs(frame) > thresh, frame, 0)). -/
noncomputable def f0Clipped (frame : List ℝ) : List ℝ :=
  let w := List.zipWith (fun x hw => x * hw) frame (hamming frame.length)
  w.map (fun x => if 0.3 * npMaxAbs w < |x| then x else 0)

/-- The autocorrelation searched by estimate_f0_frame (380). -/
noncomputable def f0Corr (frame : List ℝ) : List ℝ := autocorrFull (f0Clipped frame)

/-- scipy.signal.find_peaks interior local maxima: a strictly-rising edge into a
flat plateau with a strictly-falling exit; the reported index is the plateau
midpoint (for a width-1 plateau, the sample itself). -/
def isPlateauPeak (x : List ℝ) (m : ℕ) : Prop :=
  ∃ l r : ℕ, 0 < l ∧ l ≤ r ∧ r + 1 < x.length ∧ m = (l + r) / 2 ∧
    (∀ k, l ≤ k → k ≤ r → x.getD k 0 = x.getD l 0) ∧
    x.getD (l - 1) 0 < x.getD l 0 ∧ x.getD (r + 1) 0 < x.getD l 0

open Classical in
/-- scipy.signal.find_peaks(x, height=0): plateau-midpoint local maxima whose
height is at least 0. -/
noncomputable def findPeaks (x : List ℝ) : List ℕ :=
  (List.range x.length).filter (fun m => decide (isPlateauPeak x m ∧ 0 ≤ x.getD m 0))

/-- np.argmax: index of the first occurrence of the maximum (accumulator form). -/
noncomputable def argmaxAux (v : ℝ) (bi i : ℕ) : List ℝ → ℕ
  | [] => bi
  | a :: t => if v < a then argmaxAux a i (i + 1) t else argmaxAux v bi (i + 1) t

/-- np.argmax over a list; 0 on the empty list (never hit in the source). -/
noncomputable def argmaxIdx : List ℝ → ℕ
  | [] => 0
  | a :: t => argmaxAux a 0 1 t

/-- estimate_f0_frame (376–386).  lag range int(sr/500)..min(int(sr/60),
len(corr)-1); peak lags found by find_peaks on the slice; the best lag is the
argmax of the autocorrelation among the peaks; accept as voiced only when
corr[best]/(corr[0]+1e-12) ≥ 0.3, else 0. -/
noncomputable def estimate_f0_frame (frame : List ℝ) (sr : ℕ) : ℝ :=
  let corr := f0Corr frame
  let lagMin := sr / 500
  let lagMax := min (sr / 60) (corr.length - 1)
  if lagMax ≤ lagMin ∨ corr.getD 0 0 < 1e-12 then 0
  else
    let sl := (corr.drop lagMin).take (lagMax - lagMin)
    let peaks := findPeaks sl
    if peaks = [] then 0
    else
      let best := peaks.getD (argmaxIdx (peaks.map (fun p => sl.getD p 0))) 0 + lagMin
      if 0.3 ≤ corr.getD best 0 / (corr.getD 0 0 + 1e-12) then (sr : ℝ) / best else 0

/-- Frame matrix consumed by the pitch engine (389): the RAW (normalized)
audio is framed — no pre-emphasis is applied in compute_f0_track. -/
noncomputable def f0Frames (audio : List ℝ) : List (List ℝ) :=
  frame_signal audio FRAME_N HOP_N

/-- compute_f0_track (388–389). -/
noncomputable def compute_f0_track (audio : List ℝ) : List ℝ :=
  (f0Frames audio).map (fun fr => estimate_f0_frame fr SR)

/-- One frame of compute_hnr (392–400); none marks the frames the loop skips. -/
noncomputable def hnrFrame (sr : ℕ) (frame : List ℝ) : Option ℝ :=
  let w := List.zipWith (fun x hw => x * hw) frame (hamming frame.length)
  let corr := autocorrFull w
  if corr.getD 0 0 < 1e-12 then none
  else
    let lmin := sr / 500
    let lmax := min (sr / 60) (corr.length - 1)
    if lmax ≤ lmin then none
    else
      let r := npclip (npMax ((corr.drop lmin).take (lmax - lmin)) / (corr.getD 0 0 + 1e-12))
        0 0.9999
      some (10 * Real.logb 10 (r / (1 - r + 1e-12)))

/-- compute_hnr (391–401): mean of the per-frame HNRs, 0 when no frame is valid. -/
noncomputable def compute_hnr (audio : List ℝ) : ℝ :=
  let hnrs := (frame_signal audio FRAME_N HOP_N).filterMap (hnrFrame SR)
  if hnrs = [] then 0 else listMean hnrs

structure JitterShimmer where
  jitter_local : ℝ
  jitter_rap : ℝ
  shimmer_local : ℝ
  shimmer_db : ℝ

/-- f0[f0 > 0]: the voiced entries of an F0 track, order preserved. -/
noncomputable def voicedOf (f0 : List ℝ) : List ℝ := f0.filter (fun v => decide (0 < v))

/-- compute_jitter_shimmer (403–417).  Fewer than 4 voiced frames: all four
values 0 by explicit fallback.  periods = 1/f0 over voiced frames; RAP uses the
3-point local mean at interior indices (nonempty since len ≥ 4); amplitudes are
per-frame RMS + 1e-12 restricted to the voiced frames. -/
noncomputable def compute_jitter_shimmer (audio : List ℝ) : JitterShimmer :=
  let f0 := compute_f0_track audio
  let voiced := voicedOf f0
  if voiced.length < 4 then ⟨0, 0, 0, 0⟩
  else
    let periods := voiced.map (fun v => 1 / v)
    let jl := listMean ((diffList periods).map (fun d => |d|)) / (listMean periods + 1e-12)
    let rap := (List.range' 1 (periods.length - 2)).map (fun i =>
      |periods.getD i 0 - listMean ((periods.drop (i - 1)).take 3)|)
    let jr := if rap.length ≠ 0 then listMean rap / listMean periods else 0
    let amps := (frame_signal audio FRAME_N HOP_N).map (fun fr =>
      Real.sqrt (listMean (fr.map (fun x => x ^ 2))) + 1e-12)
    let vamps := ((amps.take f0.length).zip f0).filterMap (fun p =>
      if 0 < p.2 then some p.1 else none)
    if vamps.length < 2 then ⟨jl, jr, 0, 0⟩
    else
      let sh := listMean ((diffList vamps).map (fun d => |d|)) / listMean vamps
      ⟨jl, jr, sh, 20 * Real.logb 10 (1 + sh + 1e-12)⟩

/-! ### Voice-activity mask and aggregates (419–475). -/

/-- Per-frame short-term energy: np.mean(frame**2). -/
noncomputable def frameEnergy (fr : List ℝ) : ℝ := listMean (fr.map (fun x => x ^ 2))

/-- Per-frame zero-crossing rate: np.mean(np.abs(np.diff(np.sign(frame))))/2. -/
noncomputable def frameZcr (fr : List ℝ) : ℝ :=
  listMean ((diffList (fr.map npSign)).map (fun d => |d|)) / 2

/-- vad_energy_zcr (419–426): thresholds from the first nf = int(0.1*sr/HOP_N)
frames; a frame is voiced (1.0) iff energy > threshold and zcr < threshold. -/
noncomputable def vad_energy_zcr (audio : List ℝ) : List ℝ :=
  let frames := frame_signal audio FRAME_N HOP_N
  let energy := frames.map frameEnergy
  let zcr := frames.map frameZcr
  let nf := max 1 (SR / 10 / HOP_N)
  let eThr := listMean (energy.take nf) * 5 + 1e-12
  let zThr := listMean (zcr.take nf) * 2 + 0.05
  List.zipWith (fun e z => if eThr < e ∧ z < zThr then (1 : ℝ) else 0) energy zcr

structure SpectralFeats where
  centroid_mean : ℝ
  centroid_std : ℝ
  spread_mean : ℝ
  flux_mean : ℝ
  flux_std : ℝ
  rolloff_mean : ℝ
  flatness_mean : ℝ
  zcr_mean : ℝ
  zcr_std : ℝ
  ste_mean : ℝ
  ste_std : ℝ
  ste_dynamic : ℝ

/-- np.fft.rfftfreq(512, 1/sr) bin k = k*sr/512. -/
noncomputable def rfftFreq (k : ℕ) : ℝ := (k : ℝ) * SR / 512

/-- Spectral centroid of one power spectrum (434). -/
noncomputable def specCentroid (p : List ℝ) : ℝ :=
  (∑ k ∈ Finset.range 257, p.getD k 0 * rfftFreq k) / (p.sum + 1e-12)

/-- Spectral spread of one power spectrum (435). -/
noncomputable def specSpread (p : List ℝ) : ℝ :=
  Real.sqrt ((∑ k ∈ Finset.range 257, p.getD k 0 * (rfftFreq k - specCentroid p) ^ 2) /
    (p.sum + 1e-12))

/-- Spectral rolloff of one power spectrum (437–438): the frequency of the
first bin whose cumulative power reaches 85% of the total; np.argmax of an
all-False mask is 0, matching the getD default. -/
noncomputable def specRolloff (p : List ℝ) : ℝ :=
  let cum : ℕ → ℝ := fun k => ∑ j ∈ Finset.range (k + 1), p.getD j 0
  rfftFreq (((List.range 257).find? (fun k => decide (0.85 * cum 256 ≤ cum k))).getD 0)

/-- Spectral flatness of one power spectrum (439): geometric over arithmetic
mean, with the 1e-12 floors of the source. -/
noncomputable def specFlatness (p : List ℝ) : ℝ :=
  Real.exp (listMean (p.map (fun v => Real.log (v + 1e-12)))) / (listMean p + 1e-12)

/-- compute_spectral_features (428–449).  zcr and ste use the raw frames;
centroid/spread/flux/rolloff/flatness use the windowed power spectra; flux
prepends 0 for the first frame. -/
noncomputable def compute_spectral_features (audio : List ℝ) : SpectralFeats :=
  let frames := frame_signal audio FRAME_N HOP_N
  let power := power_spectrum (apply_window frames) 512
  let centroid := power.map specCentroid
  let spread := power.map specSpread
  let flux := 0 :: (List.range (power.length - 1)).map (fun t =>
    Real.sqrt (∑ k ∈ Finset.range 257,
      ((power.getD (t + 1) []).getD k 0 - (power.getD t []).getD k 0) ^ 2))
  let rolloff := power.map specRolloff
  let flatness := power.map specFlatness
  let zcr := frames.map frameZcr
  let ste := frames.map frameEnergy
  { centroid_mean := listMean centroid, centroid_std := listStd centroid,
    spread_mean := listMean spread, flux_mean := listMean flux, flux_std := listStd flux,
    rolloff_mean := listMean rolloff, flatness_mean := listMean flatness,
    zcr_mean := listMean zcr, zcr_std := listStd zcr,
    ste_mean := listMean ste, ste_std := listStd ste,
    ste_dynamic := npMax ste / (listMean ste + 1e-12) }

structure ProsodyFeats where
  speech_ratio : ℝ
  pause_count : ℝ
  pause_rate : ℝ
  pause_mean_dur : ℝ
  pause_max_dur : ℝ
  pause_total_dur : ℝ
  voiced_run_mean : ℝ
  voiced_run_std : ℝ
  total_dur : ℝ

/-- Pause durations (454–459): rising/falling edges of the inverted mask; the
first falling edge is dropped when it precedes the first rising edge; paired
up to the shorter edge list; duration = (end-start)*HOP_N/sr. -/
noncomputable def pauseDurs (voiced : List ℝ) : List ℝ :=
  let uv := voiced.map (fun v => 1 - v)
  let tr := diffList uv
  let ps := (List.range tr.length).filter (fun i => decide (tr.getD i 0 = 1))
  let pe := (List.range tr.length).filter (fun i => decide (tr.getD i 0 = -1))
  if ps.length ≠ 0 ∧ pe.length ≠ 0 then
    let pe2 := if pe.getD 0 0 < ps.getD 0 0 then pe.tail else pe
    let n := min ps.length pe2.length
    (List.range n).map (fun j => ((pe2.getD j 0 : ℝ) - (ps.getD j 0 : ℝ)) * HOP_N / SR)
  else []

/-- Contiguous voiced-run lengths: the explicit loop at 461–465.  State is
(runs so far, inside a run, run start, current index); a trailing open run is
closed at the end. -/
noncomputable def voicedRuns (voiced : List ℝ) : List ℕ :=
  let st := voiced.foldl (fun (s : List ℕ × Bool × ℕ × ℕ) v =>
    let runs := s.1
    let inRun := s.2.1
    let rs := s.2.2.1
    let i := s.2.2.2
    if v ≠ 0 ∧ inRun = false then (runs, true, i, i + 1)
    else if v = 0 ∧ inRun = true then (runs ++ [i - rs], false, rs, i + 1)
    else (runs, inRun, rs, i + 1)) ([], false, 0, 0)
  if st.2.1 = true then st.1 ++ [voiced.length - st.2.2.1] else st.1

/-- compute_prosody (451–475). -/
noncomputable def compute_prosody (audio : List ℝ) : ProsodyFeats :=
  let voiced := vad_energy_zcr audio
  let total := voiced.length
  let pause := pauseDurs voiced
  let fds : ℝ := (HOP_N : ℝ) / SR
  let totalDur := (total : ℝ) * fds
  let runs := (voicedRuns voiced).map (fun n => (n : ℝ))
  { speech_ratio := voiced.sum / ((total : ℝ) + 1e-6),
    pause_count := (pause.length : ℝ),
    pause_rate := (pause.length : ℝ) / (totalDur + 1e-6),
    pause_mean_dur := if pause.length ≠ 0 then listMean pause else 0,
    pause_max_dur := if pause.length ≠ 0 then npMax pause else 0,
    pause_total_dur := pause.sum,
    voiced_run_mean := if runs.length ≠ 0 then listMean runs * fds else 0,
    voiced_run_std := if runs.length ≠ 0 then listStd runs * fds else 0,
    total_dur := totalDur }

/-! ### Feature assembly (477–503). -/

/-- np.polyfit(np.arange(n), ys, 1)[0]: the least-squares slope
(n·Σxy − Σx·Σy)/(n·Σx² − (Σx)²), x = 0..n-1. -/
noncomputable def linearSlope (ys : List ℝ) : ℝ :=
  let n := (ys.length : ℝ)
  let sx := ∑ i ∈ Finset.range ys.length, (i : ℝ)
  let sxy := ∑ i ∈ Finset.range ys.length, (i : ℝ) * ys.getD i 0
  let sxx := ∑ i ∈ Finset.range ys.length, (i : ℝ) ^ 2
  (n * sxy - sx * ys.sum) / (n * sxx - sx ^ 2)

/-- The feature mapping assembled by extract_all_features (477–503): one field
per dict key; the four mfcc aggregate families are kept as 13-entry lists in
coefficient order, and the diagnostic echoes as lists. -/
structure Features where
  f0_mean : ℝ
  f0_std : ℝ
  f0_range : ℝ
  f0_slope : ℝ
  voiced_ratio : ℝ
  jitter_local : ℝ
  jitter_rap : ℝ
  shimmer_local : ℝ
  shimmer_db : ℝ
  lpc_error_mean : ℝ
  lpc_error_std : ℝ
  lpc_flux : ℝ
  centroid_mean : ℝ
  centroid_std : ℝ
  spread_mean : ℝ
  flux_mean : ℝ
  flux_std : ℝ
  rolloff_mean : ℝ
  flatness_mean : ℝ
  zcr_mean : ℝ
  zcr_std : ℝ
  ste_mean : ℝ
  ste_std : ℝ
  ste_dynamic : ℝ
  speech_ratio : ℝ
  pause_count : ℝ
  pause_rate : ℝ
  pause_mean_dur : ℝ
  pause_max_dur : ℝ
  pause_total_dur : ℝ
  voiced_run_mean : ℝ
  voiced_run_std : ℝ
  total_dur : ℝ
  hnr : ℝ
  mfcc_mean : List ℝ
  mfcc_std : List ℝ
  mfccD_mean : List ℝ
  mfccDD_mean : List ℝ
  f0_track : List ℝ
  mfcc_head : List (List ℝ)

/-- The body of extract_all_features (481–503) applied to the already
normalized audio. -/
noncomputable def featuresOfNormalized (audio : List ℝ) : Features :=
  let mfcc := compute_mfcc audio
  let mfccD := delta_features mfcc
  let mfccDD := delta_features mfccD
  let f0t := compute_f0_track audio
  let vf0 := voicedOf f0t
  let js := compute_jitter_shimmer audio
  let lpc := compute_lpc_features audio
  let spec := compute_spectral_features audio
  let pros := compute_prosody audio
  { f0_mean := if 0 < vf0.length then listMean vf0 else 0,
    f0_std := if 0 < vf0.length then listStd vf0 else 0,
    f0_range := if 1 < vf0.length then npMax vf0 - npMin vf0 else 0,
    f0_slope := if 2 < vf0.length then linearSlope vf0 else 0,
    voiced_ratio := (vf0.length : ℝ) / ((f0t.length : ℝ) + 1e-6),
    jitter_local := js.jitter_local,
    jitter_rap := js.jitter_rap,
    shimmer_local := js.shimmer_local,
    shimmer_db := js.shimmer_db,
    lpc_error_mean := lpc.lpc_error_mean,
    lpc_error_std := lpc.lpc_error_std,
    lpc_flux := lpc.lpc_flux,
    centroid_mean := spec.centroid_mean,
    centroid_std := spec.centroid_std,
    spread_mean := spec.spread_mean,
    flux_mean := spec.flux_mean,
    flux_std := spec.flux_std,
    rolloff_mean := spec.rolloff_mean,
    flatness_mean := spec.flatness_mean,
    zcr_mean := spec.zcr_mean,
    zcr_std := spec.zcr_std,
    ste_mean := spec.ste_mean,
    ste_std := spec.ste_std,
    ste_dynamic := spec.ste_dynamic,
    speech_ratio := pros.speech_ratio,
    pause_count := pros.pause_count,
    pause_rate := pros.pause_rate,
    pause_mean_dur := pros.pause_mean_dur,
    pause_max_dur := pros.pause_max_dur,
    pause_total_dur := pros.pause_total_dur,
    voiced_run_mean := pros.voiced_run_mean,
    voiced_run_std := pros.voiced_run_std,
    total_dur := pros.total_dur,
    hnr := compute_hnr audio,
    mfcc_mean := mfcc.map listMean,
    mfcc_std := mfcc.map listStd,
    mfccD_mean := mfccD.map listMean,
    mfccDD_mean := mfccDD.map listMean,
    f0_track := f0t,
    mfcc_head := mfcc.take 5 }

/-- extract_all_features (477–503): normalize, then extract.  The
@st.cache_data decorator memoizes this pure function of its arguments and
does not change its value. -/
noncomputable def extract_all_features (audio : List ℝ) : Features :=
  featuresOfNormalized (normalize_audio audio)

/-- The message numpy raises from np.max over a zero-size array. -/
def emptyMaxError : String := "zero-size array to reduction operation maximum which has no identity"

/-- normalize_audio as actually executed by Python: np.max raises an untyped
ValueError on an empty buffer (line 294); there is no input validation before
it. -/
noncomputable def normalize_audioE (audio : List ℝ) : Except String (List ℝ) :=
  if audio.length = 0 then Except.error emptyMaxError
  else Except.ok (normalize_audio audio)

/-- extract_all_features with the error behaviour of the Python pipeline: the
only raise reachable from a finite mono buffer is np.max on an empty buffer;
every nonempty buffer flows through total arithmetic to a feature record. -/
noncomputable def extract_all_featuresE (audio : List ℝ) : Except String Features :=
  (normalize_audioE audio).map featuresOfNormalized

/-! ### Indicator Synthesizer (505–557). -/

/-- sigmoid (505–506). -/
noncomputable def sigmoid (x center scale : ℝ) : ℝ :=
  1 / (1 + Real.exp (-(x - center) / scale))

/-- Python substring containment: needle in hay. -/
def strContains (hay needle : String) : Bool :=
  (List.range (hay.toList.length + 1)).any (fun i => needle.toList.isPrefixOf (hay.toList.drop i))

def roleMale : String := "Male"

def roleFemale : String := "Female"

def rolePilot : String := "Pilot"

inductive RiskLevel where
  | NOMINAL
  | MONITOR
  | CAUTION
  | ALERT
deriving DecidableEq, Repr

/-- The four-bucket risk classifier (542–545): composite<30 NOMINAL, <50
MONITOR, <70 CAUTION, else ALERT. -/
noncomputable def riskOf (composite : ℝ) : RiskLevel :=
  if composite < 30 then RiskLevel.NOMINAL
  else if composite < 50 then RiskLevel.MONITOR
  else if composite < 70 then RiskLevel.CAUTION
  else RiskLevel.ALERT

/-- Severity order of the risk buckets: NOMINAL < MONITOR < CAUTION < ALERT. -/
def riskIdx : RiskLevel → ℕ
  | RiskLevel.NOMINAL => 0
  | RiskLevel.MONITOR => 1
  | RiskLevel.CAUTION => 2
  | RiskLevel.ALERT => 3

/-- The indicator record returned by compute_indicators (546–557); the three
contribution breakdowns are kept as lists in the source's insertion order. -/
structure Indicators where
  fatigue : ℝ
  stress : ℝ
  cognitive : ℝ
  rt_clarity : ℝ
  composite : ℝ
  risk_level : RiskLevel
  confidence : ℝ
  fat_subs : List ℝ
  stre_subs : List ℝ
  cog_subs : List ℝ
  f0_mean : ℝ
  f0_std : ℝ
  f0_slope : ℝ
  hnr : ℝ
  jitter : ℝ
  shimmer_db : ℝ
  speech_ratio : ℝ
  pause_rate : ℝ
  voiced_ratio : ℝ
  centroid : ℝ
  lpc_flux : ℝ
  pause_mean : ℝ

/-- compute_indicators (508–557).  Role picks the stress F0 baseline by
substring containment (509); category sums are clipped to [0,100]; clarity is
reported separately; confidence = clip(voiced_ratio*total_dur/6, 0.35, 1)*100;
composite = 0.35*fatigue + 0.30*stress + 0.35*cognitive; risk from the
30/50/70 thresholds.  f.get defaults (mfccD1_mean, total_dur) always find
their key in the assembled feature set, so they read the field itself. -/
noncomputable def compute_indicators (f : Features) (role : String := rolePilot) : Indicators :=
  let f0Center : ℝ := if strContains role roleMale then 140
    else if strContains role roleFemale then 200 else 165
  let fatVocalEnergy := (1 - npclip (f.ste_mean * 500) 0 1) * 20
  let fatHnrBreathiness := (1 - sigmoid f.hnr 12 4) * 18
  let fatShimmer := npclip (f.shimmer_db / 2.5) 0 1 * 16
  let fatPitchFlatness := (1 - npclip (f.f0_range / 150) 0 1) * 15
  let fatPauseLength := npclip (f.pause_mean_dur / 1.2) 0 1 * 15
  let fatSpeechRate := (1 - npclip (f.speech_ratio / 0.65) 0 1) * 8
  let fatVoicedRatio := (1 - npclip (f.voiced_ratio / 0.55) 0 1) * 8
  let fatigue := npclip (fatVocalEnergy + fatHnrBreathiness + fatShimmer + fatPitchFlatness +
    fatPauseLength + fatSpeechRate + fatVoicedRatio) 0 100
  let streF0Elevation := sigmoid f.f0_mean (f0Center + 30) 25 * 22
  let streF0Variability := npclip (f.f0_std / 45) 0 1 * 15
  let streJitter := npclip (f.jitter_local / 0.015) 0 1 * 16
  let streSpectralFlux := npclip (f.flux_mean * 4000) 0 1 * 13
  let streEnergyVar := npclip (f.ste_std * 600) 0 1 * 12
  let streCentroidHi := sigmoid f.centroid_mean 2200 500 * 12
  let streLpcFlux := npclip (f.lpc_flux * 60) 0 1 * 10
  let stress := npclip (streF0Elevation + streF0Variability + streJitter + streSpectralFlux +
    streEnergyVar + streCentroidHi + streLpcFlux) 0 100
  let cogHesitation := npclip (f.pause_rate * 2.5) 0 1 * 22
  let cogRhythm := npclip (f.voiced_run_std / 0.45) 0 1 * 18
  let cogShortRuns := (1 - npclip (f.voiced_run_mean / 0.7) 0 1) * 15
  let cogLpcError := npclip (f.lpc_error_std * 1200) 0 1 * 14
  let cogSpectralNoise := npclip (f.flatness_mean * 6) 0 1 * 14
  let cogJitterRap := npclip (f.jitter_rap / 0.012) 0 1 * 10
  let cogMfccDelta := npclip (|f.mfccD_mean.getD 0 0| / 4) 0 1 * 7
  let cognitive := npclip (cogHesitation + cogRhythm + cogShortRuns + cogLpcError +
    cogSpectralNoise + cogJitterRap + cogMfccDelta) 0 100
  let clarityRaw := sigmoid f.hnr 10 5 * 35 + (1 - npclip (f.jitter_local / 0.02) 0 1) * 25 +
    npclip (f.speech_ratio / 0.6) 0 1 * 20 + (1 - npclip (f.flatness_mean * 5) 0 1) * 20
  let conf := npclip (f.voiced_ratio * f.total_dur / 6) 0.35 1.0
  let composite := 0.35 * fatigue + 0.30 * stress + 0.35 * cognitive
  { fatigue := fatigue,
    stress := stress,
    cognitive := cognitive,
    rt_clarity := npclip clarityRaw 0 100,
    composite := composite,
    risk_level := if composite < 30 then RiskLevel.NOMINAL
      else if composite < 50 then RiskLevel.MONITOR
      else if composite < 70 then RiskLevel.CAUTION
      else RiskLevel.ALERT,
    confidence := conf * 100,
    fat_subs := [fatVocalEnergy, fatHnrBreathiness, fatShimmer, fatPitchFlatness,
      fatPauseLength, fatSpeechRate, fatVoicedRatio].map (fun v => min (v * 5) 100),
    stre_subs := [streF0Elevation, streF0Variability, streJitter, streSpectralFlux,
      streEnergyVar, streCentroidHi, streLpcFlux].map (fun v => min (v * 5) 100),
    cog_subs := [cogHesitation, cogRhythm, cogShortRuns, cogLpcError,
      cogSpectralNoise, cogJitterRap, cogMfccDelta].map (fun v => min (v * 5) 100),
    f0_mean := f.f0_mean,
    f0_std := f.f0_std,
    f0_slope := f.f0_slope,
    hnr := f.hnr,
    jitter := f.jitter_local * 100,
    shimmer_db := f.shimmer_db,
    speech_ratio := f.speech_ratio * 100,
    pause_rate := f.pause_rate,
    voiced_ratio := f.voiced_ratio * 100,
    centroid := f.centroid_mean,
    lpc_flux := f.lpc_flux,
    pause_mean := f.pause_mean_dur }

/-- An all-zero feature record, used to instantiate universally quantified
theorems at a concrete input. -/
def zeroFeatures : Features :=
  { f0_mean := 0, f0_std := 0, f0_range := 0, f0_slope := 0, voiced_ratio := 0,
    jitter_local := 0, jitter_rap := 0, shimmer_local := 0, shimmer_db := 0,
    lpc_error_mean := 0, lpc_error_std := 0, lpc_flux := 0,
    centroid_mean := 0, centroid_std := 0, spread_mean := 0, flux_mean := 0,
    flux_std := 0, rolloff_mean := 0, flatness_mean := 0, zcr_mean := 0,
    zcr_std := 0, ste_mean := 0, ste_std := 0, ste_dynamic := 0,
    speech_ratio := 0, pause_count := 0, pause_rate := 0, pause_mean_dur := 0,
    pause_max_dur := 0, pause_total_dur := 0, voiced_run_mean := 0,
    voiced_run_std := 0, total_dur := 0, hnr := 0,
    mfcc_mean := [], mfcc_std := [], mfccD_mean := [], mfccDD_mean := [],
    f0_track := [], mfcc_head := [] }


/-! ### Helper lemmas. -/

theorem npclip_le (x lo hi : ℝ) : npclip x lo hi ≤ hi := min_le_right _ _

theorem le_npclip (x : ℝ) {lo hi : ℝ} (h : lo ≤ hi) : lo ≤ npclip x lo hi :=
  le_min (le_max_right _ _) h

theorem wsum_bounds (a b c : ℝ) (h1 : 0 ≤ a) (h2 : a ≤ 100) (h3 : 0 ≤ b) (h4 : b ≤ 100)
    (h5 : 0 ≤ c) (h6 : c ≤ 100) :
    0 ≤ 0.35 * a + 0.30 * b + 0.35 * c ∧ 0.35 * a + 0.30 * b + 0.35 * c ≤ 100 := by
  constructor <;> linarith

theorem confidence_bounds (v : ℝ) :
    35 ≤ npclip v 0.35 1.0 * 100 ∧ npclip v 0.35 1.0 * 100 ≤ 100 := by
  have h1 : (0.35 : ℝ) ≤ npclip v 0.35 1.0 := le_npclip v (by norm_num)
  have h2 : npclip v 0.35 1.0 ≤ 1.0 := npclip_le v 0.35 1.0
  constructor <;> linarith

theorem riskOf_mono {x y : ℝ} (h : x ≤ y) : riskIdx (riskOf x) ≤ riskIdx (riskOf y) := by
  unfold riskOf
  split_ifs <;> simp [riskIdx] <;> linarith

/-! ### Claim theorems. -/

/-- Claim C1: for every feature set and role, the indicator record has its four
sub-scores (fatigue, stress, cognitive, clarity) and composite each in [0,100],
its confidence in [35,100], and its risk level is the step function of the
composite with breakpoints 30/50/70, non-decreasing in the composite (the
monotonicity is stated over the extra arguments x ≤ y). -/
theorem indicators_bounded (f : Features) (role : String) (x y : ℝ) (h : x ≤ y) :
    (0 ≤ (compute_indicators f role).fatigue ∧ (compute_indicators f role).fatigue ≤ 100) ∧
    (0 ≤ (compute_indicators f role).stress ∧ (compute_indicators f role).stress ≤ 100) ∧
    (0 ≤ (compute_indicators f role).cognitive ∧ (compute_indicators f role).cognitive ≤ 100) ∧
    (0 ≤ (compute_indicators f role).rt_clarity ∧ (compute_indicators f role).rt_clarity ≤ 100) ∧
    (0 ≤ (compute_indicators f role).composite ∧ (compute_indicators f role).composite ≤ 100) ∧
    (35 ≤ (compute_indicators f role).confidence ∧ (compute_indicators f role).confidence ≤ 100) ∧
    (compute_indicators f role).risk_level = riskOf (compute_indicators f role).composite ∧
    riskIdx (riskOf x) ≤ riskIdx (riskOf y) := by
  dsimp only [compute_indicators]
  exact ⟨⟨le_npclip _ (by norm_num), npclip_le _ _ _⟩,
    ⟨le_npclip _ (by norm_num), npclip_le _ _ _⟩,
    ⟨le_npclip _ (by norm_num), npclip_le _ _ _⟩,
    ⟨le_npclip _ (by norm_num), npclip_le _ _ _⟩,
    wsum_bounds _ _ _ (le_npclip _ (by norm_num)) (npclip_le _ _ _)
      (le_npclip _ (by norm_num)) (npclip_le _ _ _)
      (le_npclip _ (by norm_num)) (npclip_le _ _ _),
    confidence_bounds _, rfl, riskOf_mono h⟩

/-- Witness for C1 at the all-zero feature set, the default role, and the
monotonicity pair 0 ≤ 50. -/
theorem indicators_bounded_witness :
    (0 ≤ (compute_indicators zeroFeatures rolePilot).fatigue ∧
      (compute_indicators zeroFeatures rolePilot).fatigue ≤ 100) ∧
    (0 ≤ (compute_indicators zeroFeatures rolePilot).stress ∧
      (compute_indicators zeroFeatures rolePilot).stress ≤ 100) ∧
    (0 ≤ (compute_indicators zeroFeatures rolePilot).cognitive ∧
      (compute_indicators zeroFeatures rolePilot).cognitive ≤ 100) ∧
    (0 ≤ (compute_indicators zeroFeatures rolePilot).rt_clarity ∧
      (compute_indicators zeroFeatures rolePilot).rt_clarity ≤ 100) ∧
    (0 ≤ (compute_indicators zeroFeatures rolePilot).composite ∧
      (compute_indicators zeroFeatures rolePilot).composite ≤ 100) ∧
    (35 ≤ (compute_indicators zeroFeatures rolePilot).confidence ∧
      (compute_indicators zeroFeatures rolePilot).confidence ≤ 100) ∧
    (compute_indicators zeroFeatures rolePilot).risk_level =
      riskOf (compute_indicators zeroFeatures rolePilot).composite ∧
    riskIdx (riskOf 0) ≤ riskIdx (riskOf 50) :=
  indicators_bounded zeroFeatures rolePilot 0 50 (by norm_num)

/-- Claim C2: for every feature set and role, composite = 0.35·fatigue +
0.30·stress + 0.35·cognitive (the clarity sub-score appears nowhere in it),
and the risk level is NOMINAL/MONITOR/CAUTION/ALERT by the 30/50/70
thresholds on the composite. -/
theorem composite_formula (f : Features) (role : String) :
    (compute_indicators f role).composite =
      0.35 * (compute_indicators f role).fatigue + 0.30 * (compute_indicators f role).stress +
      0.35 * (compute_indicators f role).cognitive ∧
    (compute_indicators f role).risk_level =
      (if (compute_indicators f role).composite < 30 then RiskLevel.NOMINAL
       else if (compute_indicators f role).composite < 50 then RiskLevel.MONITOR
       else if (compute_indicators f role).composite < 70 then RiskLevel.CAUTION
       else RiskLevel.ALERT) :=
  ⟨rfl, rfl⟩

/-- Claim C4 (code bug): the engine performs no input validation.  On the
empty buffer the pipeline raises numpy's untyped zero-size-reduction
ValueError from np.max inside normalize_audio, not a typed invalid-input
error; this theorem evaluates the embedded error path at that failing
input. -/
theorem empty_buffer_untyped_error :
    extract_all_featuresE [] = Except.error emptyMaxError := rfl

/-- Claim C8: the pipeline is a pure function of the buffer and role —
identical inputs give identical feature sets and indicator records. -/
theorem pipeline_deterministic (a b : List ℝ) (r s : String) (hab : a = b) (hrs : r = s) :
    compute_indicators (extract_all_features a) r =
      compute_indicators (extract_all_features b) s ∧
    extract_all_features a = extract_all_features b := by
  subst hab
  subst hrs
  exact ⟨rfl, rfl⟩

/-- Witness for C8 at a concrete one-sample buffer and the default role. -/
theorem pipeline_deterministic_witness :
    compute_indicators (extract_all_features [(1 : ℝ)]) rolePilot =
      compute_indicators (extract_all_features [(1 : ℝ)]) rolePilot ∧
    extract_all_features [(1 : ℝ)] = extract_all_features [(1 : ℝ)] :=
  pipeline_deterministic [(1 : ℝ)] [(1 : ℝ)] rolePilot rolePilot rfl rfl

theorem le_foldl_maxAbs (l : List ℝ) (m : ℝ) :
    m ≤ l.foldl (fun acc x => max acc |x|) m := by
  induction l generalizing m with
  | nil => exact le_refl m
  | cons a t ih => exact le_trans (le_max_left m |a|) (ih (max m |a|))

theorem npMaxAbs_nonneg (l : List ℝ) : 0 ≤ npMaxAbs l := le_foldl_maxAbs l 0

theorem abs_le_foldl_maxAbs {x : ℝ} (l : List ℝ) (hx : x ∈ l) (m : ℝ) :
    |x| ≤ l.foldl (fun acc y => max acc |y|) m := by
  induction l generalizing m with
  | nil => exact absurd hx (List.not_mem_nil x)
  | cons a t ih =>
    rcases List.mem_cons.mp hx with rfl | hmem
    · exact le_trans (le_max_right m |x|) (le_foldl_maxAbs t (max m |x|))
    · exact ih hmem (max m |a|)

theorem abs_le_npMaxAbs {x : ℝ} {l : List ℝ} (hx : x ∈ l) : |x| ≤ npMaxAbs l :=
  abs_le_foldl_maxAbs l hx 0

theorem npMaxAbs_all_zero {l : List ℝ} (h : ∀ x ∈ l, x = 0) : npMaxAbs l = 0 := by
  have aux : ∀ l2 : List ℝ, (∀ x ∈ l2, x = 0) → ∀ m : ℝ, 0 ≤ m →
      l2.foldl (fun acc x => max acc |x|) m = m := by
    intro l2
    induction l2 with
    | nil => intro _ m _; rfl
    | cons a t ih =>
      intro hall m hm
      have ha : a = 0 := hall a (List.mem_cons_self a t)
      have hmax : max m |a| = m := by rw [ha, abs_zero]; exact max_eq_left hm
      rw [List.foldl_cons, hmax]
      exact ih (fun x hx => hall x (List.mem_cons_of_mem a hx)) m hm
  exact aux l h 0 le_rfl

/-- Claim C7: normalization divides every sample by max|x| + 1e-9; every
sample of the output of a non-zero buffer has magnitude at most 1; an
all-zero buffer maps to an all-zero buffer (no division fault: the denominator
is strictly positive).  The nonempty hypothesis reflects the waveform
invariant (np.max raises on an empty array, see the C4 theorem). -/
theorem normalize_props (audio : List ℝ) (hne : audio ≠ []) :
    normalize_audio audio = audio.map (fun x => x / (npMaxAbs audio + 1e-9)) ∧
    ((∃ x ∈ audio, x ≠ 0) → ∀ y ∈ normalize_audio audio, |y| ≤ 1) ∧
    ((∀ x ∈ audio, x = 0) → normalize_audio audio = List.replicate audio.length 0) := by
  have hpos : (0 : ℝ) < npMaxAbs audio + 1e-9 := by
    have h0 := npMaxAbs_nonneg audio
    have : (0 : ℝ) < 1e-9 := by norm_num
    linarith
  refine ⟨rfl, ?_, ?_⟩
  · intro _ y hy
    obtain ⟨z, hz, rfl⟩ := List.mem_map.mp hy
    rw [abs_div, abs_of_pos hpos]
    refine (div_le_one hpos).mpr ?_
    have := abs_le_npMaxAbs hz
    linarith
  · intro hall
    have hmax : npMaxAbs audio = 0 := npMaxAbs_all_zero hall
    unfold normalize_audio
    rw [List.eq_replicate_iff]
    refine ⟨by rw [List.length_map], ?_⟩
    intro b hb
    obtain ⟨z, hz, rfl⟩ := List.mem_map.mp hb
    rw [hall z hz, zero_div]

/-- Witness for C7: the non-zero buffer [1/2, 0] stays within magnitude 1,
and the all-zero buffer [0, 0] maps to [0, 0]. -/
theorem normalize_props_witness :
    (∀ y ∈ normalize_audio [(1 : ℝ) / 2, 0], |y| ≤ 1) ∧
    normalize_audio [(0 : ℝ), 0] = List.replicate 2 0 :=
  ⟨(normalize_props [(1 : ℝ) / 2, 0] (by simp)).2.1 ⟨1 / 2, by simp, by norm_num⟩,
   (normalize_props [(0 : ℝ), 0] (by simp)).2.2 (by simp)⟩

theorem FRAME_N_eq : FRAME_N = 551 := rfl

theorem HOP_N_eq : HOP_N = 220 := rfl

/-- Short-buffer fallback of frame_signal: fewer samples than one frame gives
exactly one all-zero frame. -/
theorem frame_signal_short {audio : List ℝ} (h : audio.length < FRAME_N) :
    frame_signal audio FRAME_N HOP_N = [List.replicate FRAME_N 0] := by
  unfold frame_signal
  rw [if_pos]
  rw [Int.fdiv_eq_ediv _ (by norm_num [HOP_N_eq])]
  rw [FRAME_N_eq, HOP_N_eq]
  rw [FRAME_N_eq] at h
  omega

/-- Claim C6: every frame produced by frame_signal has length FRAME_N; for a
buffer at least one frame long the frame count is 1 + (N - frameLen) // hop
(Python floor division); for a shorter buffer the result is exactly one
all-zero frame. -/
theorem frame_signal_spec (audio : List ℝ) :
    (∀ fr ∈ frame_signal audio FRAME_N HOP_N, fr.length = FRAME_N) ∧
    (FRAME_N ≤ audio.length →
      ((frame_signal audio FRAME_N HOP_N).length : ℤ) =
        1 + Int.fdiv ((audio.length : ℤ) - (FRAME_N : ℤ)) (HOP_N : ℤ)) ∧
    (audio.length < FRAME_N → frame_signal audio FRAME_N HOP_N = [List.replicate FRAME_N 0]) := by
  by_cases hN : audio.length < FRAME_N
  · refine ⟨?_, fun hge => absurd hge (by omega), fun _ => frame_signal_short hN⟩
    intro fr hfr
    rw [frame_signal_short hN] at hfr
    rw [List.mem_singleton.mp hfr]
    exact List.length_replicate FRAME_N 0
  · push_neg at hN
    have hfd : Int.fdiv ((audio.length : ℤ) - (FRAME_N : ℤ)) (HOP_N : ℤ) =
        ((audio.length : ℤ) - (FRAME_N : ℤ)) / (HOP_N : ℤ) :=
      Int.fdiv_eq_ediv _ (by norm_num [HOP_N_eq])
    have hNge : (FRAME_N : ℤ) ≤ (audio.length : ℤ) := by exact_mod_cast hN
    have hcond : ¬ (1 + Int.fdiv ((audio.length : ℤ) - (FRAME_N : ℤ)) (HOP_N : ℤ) ≤ 0) := by
      rw [hfd]
      simp only [FRAME_N_eq, HOP_N_eq] at hNge ⊢
      omega
    refine ⟨?_, fun _ => ?_, fun hlt => absurd hlt (by omega)⟩
    · intro fr hfr
      unfold frame_signal at hfr
      rw [if_neg hcond] at hfr
      obtain ⟨i, hi, rfl⟩ := List.mem_map.mp hfr
      rw [List.mem_range] at hi
      rw [List.length_take, List.length_drop]
      rw [hfd] at hi
      simp only [FRAME_N_eq, HOP_N_eq] at hi hNge ⊢
      omega
    · unfold frame_signal
      rw [if_neg hcond, List.length_map, List.length_range, hfd]
      simp only [FRAME_N_eq, HOP_N_eq] at hNge ⊢
      omega

/-- Witness for C6: a 771-sample buffer yields 1 + (771-551)//220 = 2 frames;
a 1-sample buffer yields one all-zero frame. -/
theorem frame_signal_spec_witness :
    ((frame_signal (List.replicate 771 (1 : ℝ)) FRAME_N HOP_N).length : ℤ) =
      1 + Int.fdiv (((List.replicate 771 (1 : ℝ)).length : ℤ) - (FRAME_N : ℤ)) (HOP_N : ℤ) ∧
    frame_signal [(1 : ℝ)] FRAME_N HOP_N = [List.replicate FRAME_N 0] :=
  ⟨(frame_signal_spec (List.replicate 771 (1 : ℝ))).2.1 (by norm_num [FRAME_N_eq]),
   (frame_signal_spec [(1 : ℝ)]).2.2 (by norm_num [FRAME_N_eq])⟩

theorem zipWith_replicate_left (f : ℝ → ℝ → ℝ) (a : ℝ) :
    ∀ (n : ℕ) (l : List ℝ),
      List.zipWith f (List.replicate n a) l = (l.take n).map (f a) := by
  intro n
  induction n with
  | zero => intro l; simp
  | succ k ih =>
    intro l
    cases l with
    | nil => simp
    | cons b t => simp [List.replicate_succ, ih t]

theorem pre_emphasis_replicate_one :
    pre_emphasis (List.replicate 551 (1 : ℝ)) =
      1 :: List.replicate 550 (1 - PRE_EMP * 1) := by
  show (1 : ℝ) :: List.zipWith (fun cur prev => cur - PRE_EMP * prev)
      (List.replicate 550 1) (List.replicate 551 1) =
    1 :: List.replicate 550 (1 - PRE_EMP * 1)
  rw [zipWith_replicate_left, List.take_replicate, List.map_replicate]
  norm_num

theorem frame_signal_of_length_eq {l : List ℝ} (h : l.length = FRAME_N) :
    frame_signal l FRAME_N HOP_N = [l] := by
  unfold frame_signal
  rw [h, sub_self, Int.zero_fdiv]
  rw [if_neg (by norm_num)]
  rw [show ((1 : ℤ) + 0).toNat = 1 from rfl]
  rw [show List.range 1 = [0] from rfl, List.map_singleton, Nat.zero_mul,
    List.drop_zero, ← h, List.take_length]

theorem pre_emphasis_length (audio : List ℝ) (coef : ℝ) :
    (pre_emphasis audio coef).length = audio.length := by
  cases audio with
  | nil => rfl
  | cons a t =>
    simp only [pre_emphasis, List.length_cons, List.length_zipWith]
    omega

theorem frame_signal_length_congr (a b : List ℝ) (h : a.length = b.length) (fl hop : ℕ) :
    (frame_signal a fl hop).length = (frame_signal b fl hop).length := by
  unfold frame_signal
  rw [h]
  by_cases hc : (1 : ℤ) + Int.fdiv ((b.length : ℤ) - (fl : ℤ)) (hop : ℤ) ≤ 0
  · rw [if_pos hc, if_pos hc]
  · rw [if_neg hc, if_neg hc, List.length_map, List.length_map]

/-- Claim C5 counterexample: on a constant 551-sample buffer the frame matrix
consumed by the cepstral engine (frames of the pre-emphasized signal) differs
from the frame matrix consumed by the LPC engine (frames of the raw signal):
compute_lpc_features and compute_f0_track never apply pre-emphasis. -/
theorem engines_frames_differ :
    mfccFrames (List.replicate 551 (1 : ℝ)) ≠ lpcFrames (List.replicate 551 (1 : ℝ)) := by
  unfold mfccFrames lpcFrames
  rw [pre_emphasis_replicate_one]
  rw [frame_signal_of_length_eq
    (by rw [List.length_cons, List.length_replicate, FRAME_N_eq])]
  rw [frame_signal_of_length_eq (by rw [List.length_replicate, FRAME_N_eq])]
  intro h
  have h2 := List.singleton_injective h
  have h3 := congrArg (fun l => l.getD 1 (0 : ℝ)) h2
  dsimp only at h3
  have e1 : ((1 : ℝ) :: List.replicate 550 (1 - PRE_EMP * 1)).getD 1 0 = 1 - PRE_EMP * 1 := by
    rw [show List.replicate 550 (1 - PRE_EMP * 1) =
      (1 - PRE_EMP * 1) :: List.replicate 549 (1 - PRE_EMP * 1) from rfl]
    rfl
  have e2 : (List.replicate 551 (1 : ℝ)).getD 1 0 = 1 := by
    rw [show List.replicate 551 (1 : ℝ) = 1 :: 1 :: List.replicate 549 1 from rfl]
    rfl
  rw [e1, e2] at h3
  rw [show PRE_EMP = 0.97 from rfl] at h3
  norm_num at h3

/-- Claim C5 amended: the LPC and pitch engines consume frames of the raw
(normalized) signal while only the cepstral engine frames the pre-emphasized
signal; all three use the same frame length and hop, so the frame counts
coincide for every buffer. -/
theorem engine_frames_amended (audio : List ℝ) :
    lpcFrames audio = frame_signal audio FRAME_N HOP_N ∧
    f0Frames audio = frame_signal audio FRAME_N HOP_N ∧
    mfccFrames audio = frame_signal (pre_emphasis audio) FRAME_N HOP_N ∧
    (mfccFrames audio).length = (lpcFrames audio).length :=
  ⟨rfl, rfl, rfl,
    frame_signal_length_congr _ _ (pre_emphasis_length audio PRE_EMP) FRAME_N HOP_N⟩

theorem getD_zero_of_all_zero {l : List ℝ} (h : ∀ x ∈ l, x = 0) (i : ℕ) : l.getD i 0 = 0 := by
  rcases Nat.lt_or_ge i l.length with hlt | hge
  · rw [List.getD_eq_getElem?_getD, List.getElem?_eq_getElem hlt, Option.getD_some]
    exact h _ (List.getElem_mem hlt)
  · rw [List.getD_eq_getElem?_getD, List.getElem?_eq_none hge, Option.getD_none]

theorem autocorrLags_all_zero {x : List ℝ} (hx : ∀ y ∈ x, y = 0) (k : ℕ) :
    ∀ z ∈ autocorrLags x k, z = 0 := by
  intro z hz
  obtain ⟨j, _, rfl⟩ := List.mem_map.mp hz
  exact Finset.sum_eq_zero fun n _ => by rw [getD_zero_of_all_zero hx, zero_mul]

theorem autocorrFull_all_zero {x : List ℝ} (hx : ∀ y ∈ x, y = 0) :
    ∀ z ∈ autocorrFull x, z = 0 := by
  intro z hz
  obtain ⟨j, _, rfl⟩ := List.mem_map.mp hz
  exact Finset.sum_eq_zero fun n _ => by rw [getD_zero_of_all_zero hx, zero_mul]

theorem lpcWindowed_zero : ∀ y ∈ lpcWindowed (List.replicate FRAME_N 0), y = 0 := by
  intro y hy
  unfold lpcWindowed at hy
  rw [zipWith_replicate_left] at hy
  obtain ⟨w, _, rfl⟩ := List.mem_map.mp hy
  exact zero_mul w

theorem lpcR0_zero : lpcR0 (List.replicate FRAME_N 0) = 0 := by
  unfold lpcR0
  exact getD_zero_of_all_zero (autocorrLags_all_zero lpcWindowed_zero N_LPC) 0

theorem lpcStep_fst_length (r : List ℝ) (s : List ℝ × ℝ) (i : ℕ) :
    ((lpcStep r s i).1).length = s.1.length := by
  simp [lpcStep]

theorem lpc_foldl_length (r : List ℝ) :
    ∀ (L : List ℕ) (s : List ℝ × ℝ), ((L.foldl (lpcStep r) s).1).length = s.1.length := by
  intro L
  induction L with
  | nil => intro s; rfl
  | cons i t ih =>
    intro s
    rw [List.foldl_cons, ih, lpcStep_fst_length]

/-- Claim C10: on any full-length frame the LPC estimator returns exactly
N_LPC = 16 coefficients, and whenever the zero-lag autocorrelation of the
windowed frame is below 1e-12 the recursion is skipped and the result is the
all-zero vector. -/
theorem compute_lpc_spec (frame : List ℝ) (h : frame.length = FRAME_N) :
    (compute_lpc frame).length = N_LPC ∧
    (lpcR0 frame < 1e-12 → compute_lpc frame = List.replicate N_LPC 0) := by
  unfold compute_lpc
  by_cases hr : (autocorrLags (lpcWindowed frame) N_LPC).getD 0 0 < 1e-12
  · rw [if_pos hr]
    exact ⟨List.length_replicate _ _, fun _ => rfl⟩
  · rw [if_neg hr]
    refine ⟨?_, fun hc => absurd hc hr⟩
    rw [lpc_foldl_length]
    exact List.length_replicate _ _

/-- Witness for C10 at the all-zero (silent) frame. -/
theorem compute_lpc_spec_witness :
    (compute_lpc (List.replicate FRAME_N 0)).length = N_LPC ∧
    compute_lpc (List.replicate FRAME_N 0) = List.replicate N_LPC 0 :=
  ⟨(compute_lpc_spec (List.replicate FRAME_N 0) (List.length_replicate _ _)).1,
   (compute_lpc_spec (List.replicate FRAME_N 0) (List.length_replicate _ _)).2
     (by rw [lpcR0_zero]; norm_num)⟩

theorem f0Clipped_zero : ∀ y ∈ f0Clipped (List.replicate FRAME_N 0), y = 0 := by
  intro y hy
  simp only [f0Clipped] at hy
  obtain ⟨x, hx, rfl⟩ := List.mem_map.mp hy
  rw [zipWith_replicate_left] at hx
  obtain ⟨w, _, rfl⟩ := List.mem_map.mp hx
  rw [zero_mul]
  exact ite_self 0

theorem estimate_f0_zero_frame : estimate_f0_frame (List.replicate FRAME_N 0) SR = 0 := by
  have hc : (f0Corr (List.replicate FRAME_N 0)).getD 0 0 = 0 := by
    unfold f0Corr
    exact getD_zero_of_all_zero (autocorrFull_all_zero f0Clipped_zero) 0
  simp only [estimate_f0_frame]
  rw [if_pos (Or.inr (by rw [hc]; norm_num))]

theorem f0_track_nil : compute_f0_track ([] : List ℝ) = [0] := by
  unfold compute_f0_track f0Frames
  rw [frame_signal_short (by norm_num [FRAME_N_eq])]
  rw [List.map_singleton, estimate_f0_zero_frame]

theorem voicedOf_zero_singleton : voicedOf [(0 : ℝ)] = [] := by
  unfold voicedOf
  rw [List.filter_cons_of_neg (by simp), List.filter_nil]

theorem voiced_nil_lt : (voicedOf (compute_f0_track ([] : List ℝ))).length < 4 := by
  rw [f0_track_nil, voicedOf_zero_singleton]
  norm_num

/-- Claim C9: whenever the F0 track has fewer than 4 voiced frames, the
perturbation computation reports jitter-local, jitter-RAP, shimmer-local and
shimmer-dB all as exactly 0 by the explicit fallback (the function is total:
no error path exists for this case). -/
theorem jitter_shimmer_fallback (audio : List ℝ)
    (h : (voicedOf (compute_f0_track audio)).length < 4) :
    compute_jitter_shimmer audio = ⟨0, 0, 0, 0⟩ := by
  simp only [compute_jitter_shimmer]
  rw [if_pos h]

/-- Witness for C9: the empty buffer has F0 track [0], hence 0 voiced frames. -/
theorem jitter_shimmer_fallback_witness :
    compute_jitter_shimmer ([] : List ℝ) = ⟨0, 0, 0, 0⟩ :=
  jitter_shimmer_fallback [] voiced_nil_lt

theorem SR_eq : SR = 22050 := rfl

open Classical in
theorem findPeaks_bounds {x : List ℝ} {p : ℕ} (hp : p ∈ findPeaks x) :
    1 ≤ p ∧ p + 1 < x.length := by
  unfold findPeaks at hp
  rw [List.mem_filter] at hp
  obtain ⟨l, r, hl, hlr, hr1, hm, -, -, -⟩ := (of_decide_eq_true hp.2).1
  omega

theorem argmaxAux_lt (t : List ℝ) :
    ∀ (v : ℝ) (bi i : ℕ), bi < i → argmaxAux v bi i t < i + t.length := by
  induction t with
  | nil =>
    intro v bi i h
    simpa [argmaxAux] using h
  | cons a s ih =>
    intro v bi i h
    simp only [argmaxAux, List.length_cons]
    split_ifs with hc
    · have := ih a i (i + 1) (Nat.lt_succ_self i)
      omega
    · have := ih v bi (i + 1) (by omega)
      omega

theorem argmaxIdx_lt {l : List ℝ} (h : l ≠ []) : argmaxIdx l < l.length := by
  cases l with
  | nil => exact absurd rfl h
  | cons a t =>
    have := argmaxAux_lt t a 0 1 Nat.one_pos
    simp only [argmaxIdx, List.length_cons]
    omega

theorem getD_mem_of_lt {l : List ℕ} {i : ℕ} (h : i < l.length) : l.getD i 0 ∈ l := by
  rw [List.getD_eq_getElem?_getD, List.getElem?_eq_getElem h, Option.getD_some]
  exact List.getElem_mem h

/-- Claim C3: every per-frame F0 estimate is either exactly 0 (unvoiced) or
SR/lag for a peak lag restricted to 45..365 samples — the interior of the
60–500 Hz search range — giving a value inside [60, 500] Hz; and a nonzero
value is returned only when the selected autocorrelation peak is at least 0.3
times the zero-lag value. -/
theorem f0_estimate_range (frame : List ℝ) (h : frame.length = FRAME_N) :
    estimate_f0_frame frame SR = 0 ∨
    ∃ lag : ℕ, 45 ≤ lag ∧ lag ≤ 365 ∧
      estimate_f0_frame frame SR = (SR : ℝ) / lag ∧
      60 ≤ (SR : ℝ) / lag ∧ (SR : ℝ) / lag ≤ 500 ∧
      0.3 * (f0Corr frame).getD 0 0 ≤ (f0Corr frame).getD lag 0 := by
  simp only [estimate_f0_frame]
  set corr := f0Corr frame with hcorrdef
  by_cases h1 : min (SR / 60) (corr.length - 1) ≤ SR / 500 ∨ corr.getD 0 0 < 1e-12
  · rw [if_pos h1]
    exact Or.inl rfl
  · rw [if_neg h1]
    push_neg at h1
    obtain ⟨hlag, hcorr0⟩ := h1
    set sl := (corr.drop (SR / 500)).take (min (SR / 60) (corr.length - 1) - SR / 500)
      with hsldef
    by_cases h2 : findPeaks sl = []
    · rw [if_pos h2]
      exact Or.inl rfl
    · rw [if_neg h2]
      set pk := (findPeaks sl).getD (argmaxIdx ((findPeaks sl).map (fun p => sl.getD p 0))) 0
        with hpkdef
      have hmem : pk ∈ findPeaks sl := by
        apply getD_mem_of_lt
        rw [← List.length_map (findPeaks sl) (fun p => sl.getD p 0)]
        exact argmaxIdx_lt (by simpa using h2)
      obtain ⟨hp1, hp2⟩ := findPeaks_bounds hmem
      have hsllen : sl.length = min (SR / 60) (corr.length - 1) - SR / 500 := by
        rw [hsldef, List.length_take, List.length_drop]
        simp only [SR_eq] at hlag ⊢
        omega
      have h45 : 45 ≤ pk + SR / 500 := by
        simp only [SR_eq]
        omega
      have h365 : pk + SR / 500 ≤ 365 := by
        rw [hsllen] at hp2
        simp only [SR_eq] at hp2 ⊢
        omega
      have hc45 : (45 : ℝ) ≤ ((pk + SR / 500 : ℕ) : ℝ) := by exact_mod_cast h45
      have hc365 : ((pk + SR / 500 : ℕ) : ℝ) ≤ 365 := by exact_mod_cast h365
      have hpos : (0 : ℝ) < ((pk + SR / 500 : ℕ) : ℝ) := by linarith
      have hSRcast : ((SR : ℕ) : ℝ) = 22050 := by norm_num [SR_eq]
      by_cases h3 : 0.3 ≤ corr.getD (pk + SR / 500) 0 / (corr.getD 0 0 + 1e-12)
      · rw [if_pos h3]
        refine Or.inr ⟨pk + SR / 500, h45, h365, rfl, ?_, ?_, ?_⟩
        · rw [le_div_iff₀ hpos, hSRcast]
          linarith
        · rw [div_le_iff₀ hpos, hSRcast]
          linarith
        · have hd : (0 : ℝ) < corr.getD 0 0 + 1e-12 := by linarith
          have := (le_div_iff₀ hd).mp h3
          linarith
      · rw [if_neg h3]
        exact Or.inl rfl

/-- Witness for C3 at the all-zero frame (estimate 0). -/
theorem f0_estimate_range_witness :
    estimate_f0_frame (List.replicate FRAME_N 0) SR = 0 ∨
    ∃ lag : ℕ, 45 ≤ lag ∧ lag ≤ 365 ∧
      estimate_f0_frame (List.replicate FRAME_N 0) SR = (SR : ℝ) / lag ∧
      60 ≤ (SR : ℝ) / lag ∧ (SR : ℝ) / lag ≤ 500 ∧
      0.3 * (f0Corr (List.replicate FRAME_N 0)).getD 0 0 ≤
        (f0Corr (List.replicate FRAME_N 0)).getD lag 0 :=
  f0_estimate_range (List.replicate FRAME_N 0) (List.length_replicate _ _)
